import Mathlib

/-!
Verification of the ZSTL pluggable memory-allocation framework
(`src/include/ZSTL/memory_resource.hpp`, `src/include/ZSTL/vector.hpp`).

Addresses are modelled as natural numbers (`0` plays no special role; a C++
null pointer is modelled as `Option.none`).  Platform constants follow the
x86-64 Linux ABI the repository targets: `sizeof(monotonic_buffer_resource::block)`
is 24 (three 8-byte fields), `alignof(block)` is 8, `alignof(std::max_align_t)`
is 16, and `std::size_t` has maximum `2^64 - 1`.

Effects are made explicit: operations return, next to their result, the list
of calls they issue to the underlying strategy (the virtual `do_allocate` /
`do_deallocate`, or the arena's upstream provider), so that claims about
"what reaches the upstream provider" become statements about those lists.
-/

namespace ZSTL

/-- `alignof(std::max_align_t)` on x86-64 Linux: the default alignment
argument of `memory_resource::allocate` / `deallocate`. -/
def ALIGNOF_MAX_ALIGN_T : Nat := 16

/-- `sizeof(monotonic_buffer_resource::block)`: three pointer-sized fields
(`ptr`, `size`, `next`) on a 64-bit platform. -/
def SIZEOF_BLOCK : Nat := 24

/-- `alignof(monotonic_buffer_resource::block)`: pointer alignment. -/
def ALIGNOF_BLOCK : Nat := 8

/-- `std::numeric_limits<std::size_t>::max()` on a 64-bit platform. -/
def SIZE_T_MAX : Nat := 2 ^ 64 - 1

/-- A C++ pointer: `none` is the null pointer, `some a` the address `a`. -/
def Addr : Type := Option Nat

instance : DecidableEq Addr := by
  unfold Addr
  infer_instance

/-!
## `memory_resource`: the non-virtual wrappers (memory_resource.hpp lines 25-42)

`allocate` and `deallocate` are the public, non-virtual entry points shared by
every provider variant; they guard the virtual `do_allocate` / `do_deallocate`.
We return, next to the result, the dispatch that was made (`none` = the
virtual function was not invoked).
-/

/-- `memory_resource::allocate(bytes, alignment)` (lines 25-32): returns
`nullptr` when `bytes == 0` without dispatching; otherwise dispatches to the
virtual `do_allocate` with the same arguments.  The second component records
the `do_allocate` invocation, if any. -/
def memory_resource.allocate (do_alloc : Nat → Nat → Addr) (bytes alignment : Nat) :
    Addr × Option (Nat × Nat) :=
  if bytes = 0 then (none, none)
  else (do_alloc bytes alignment, some (bytes, alignment))

/-- `memory_resource::deallocate(p, bytes, alignment)` (lines 34-42): a no-op
on a null pointer; otherwise dispatches to the virtual `do_deallocate` with
the same arguments.  The result records the `do_deallocate` invocation, if
any (`none` = the virtual function was not invoked). -/
def memory_resource.deallocate (p : Addr) (bytes alignment : Nat) :
    Option (Nat × Nat × Nat) :=
  match p with
  | none => none
  | some a => some (a, bytes, alignment)

/-!
## `NewDeleteResource` (memory_resource.hpp lines 69-97)

In the repository's default build (no `PBRT_HAVE__ALIGNED_MALLOC` /
`PBRT_HAVE_POSIX_MEMALIGN` macro) `do_allocate` is `memalign(alignment, size)`.
The platform primitive is an oracle `memalign : alignment → size → Option Nat`
(`none` = allocation failure); its platform contract — every address it
returns is a multiple of the requested alignment — is taken as a hypothesis
where needed, never assumed silently.
-/

/-- `NewDeleteResource::do_allocate(size, alignment)` (lines 70-83, `#else`
branch): delegate to the platform's `memalign` primitive. -/
def NewDeleteResource.do_allocate (memalign : Nat → Nat → Option Nat)
    (size alignment : Nat) : Option Nat :=
  memalign alignment size

/-- `NewDeleteResource::do_is_equal` (lines 94-96): `this == &other`,
instance-identity on the two objects' addresses. -/
def NewDeleteResource.do_is_equal (self other : Nat) : Bool :=
  self == other

/-!
## `monotonic_buffer_resource` (memory_resource.hpp lines 143-265)
-/

/-- An arena block header (`monotonic_buffer_resource::block`, lines 231-235).
`hdr` is the address of the header itself (the address the combined upstream
allocation returned); `ptr` the payload base; `size` the payload size.  The
`next` link is represented by the order of `block_list` (head = most recently
pushed block). -/
structure Block where
  hdr : Nat
  ptr : Nat
  size : Nat
deriving DecidableEq, Repr

/-- The mutable state of a `monotonic_buffer_resource` (lines 260-264).
`upstream` is the identity (address) of the upstream provider; the upstream's
behaviour is passed separately as an oracle where an operation calls it. -/
structure MonotonicBufferResource where
  upstream : Nat
  block_size : Nat
  current : Option Block
  current_pos : Nat
  block_list : List Block
deriving DecidableEq, Repr

/-- The `monotonic_buffer_resource(initial_size, upstream)` constructor
(lines 164-174): `block_size` is `initial_size`, all other fields keep their
in-class initialisers (lines 260-264). -/
def MonotonicBufferResource.init (upstream_id initial_size : Nat) :
    MonotonicBufferResource :=
  { upstream := upstream_id
    block_size := initial_size
    current := none
    current_pos := 0
    block_list := [] }

/-- The `monotonic_buffer_resource(upstream)` constructor (lines 149-155):
`block_size` keeps its in-class initialiser `256 * 1024` (line 261). -/
def MonotonicBufferResource.initDefault (upstream_id : Nat) :
    MonotonicBufferResource :=
  MonotonicBufferResource.init upstream_id (256 * 1024)

/-- A call to the upstream provider's `deallocate(p, bytes, alignment)`. -/
structure UpDealloc where
  p : Nat
  bytes : Nat
  alignment : Nat
deriving DecidableEq, Repr

/-- `monotonic_buffer_resource::free_block(b)` (lines 253-255):
`upstream->deallocate(b, sizeof(block) + b->size)` — the block's combined
header+payload allocation, at the header address, with the *defaulted*
alignment argument. -/
def free_block (b : Block) : UpDealloc :=
  { p := b.hdr, bytes := SIZEOF_BLOCK + b.size, alignment := ALIGNOF_MAX_ALIGN_T }

/-- The `while` loop of `monotonic_buffer_resource::release` (lines 201-206):
walk the chain from head to tail, calling `free_block` on each node. -/
def releaseLoop : List Block → List UpDealloc
  | [] => []
  | b :: rest => free_block b :: releaseLoop rest

/-- `monotonic_buffer_resource::release()` (lines 200-209): free every block
in `block_list`, then set `block_list = nullptr` and `current = nullptr`.
Returns the new state and the upstream `deallocate` calls issued. -/
def MonotonicBufferResource.release (r : MonotonicBufferResource) :
    MonotonicBufferResource × List UpDealloc :=
  ({ r with block_list := [], current := none }, releaseLoop r.block_list)

/-- `monotonic_buffer_resource::do_deallocate(p, bytes, alignment)`
(lines 218-224): when `bytes > block_size` the allocation was a standalone
upstream allocation, so it is forwarded as `upstream->deallocate(p, bytes)` —
note the alignment argument is *defaulted*, the caller's `alignment` is
dropped; otherwise nothing happens.  Returns the upstream `deallocate` calls
issued. -/
def MonotonicBufferResource.do_deallocate (r : MonotonicBufferResource)
    (p : Nat) (bytes alignment : Nat) : List UpDealloc :=
  if r.block_size < bytes then
    [{ p := p, bytes := bytes, alignment := ALIGNOF_MAX_ALIGN_T }]
  else []

/-- `monotonic_buffer_resource::do_is_equal` (lines 226-228): `this == &other`. -/
def MonotonicBufferResource.do_is_equal (self other : Nat) : Bool :=
  self == other

/-- `monotonic_buffer_resource::allocate_block(size)` (lines 237-251): one
combined upstream allocation of `sizeof(block) + size` bytes at
`alignof(block)`; on success the header is written at the returned address,
the payload base is `header + sizeof(block)`, and the block is pushed onto
the head of `block_list`.  The upstream oracle may fail (`Except.error`);
the failure is returned unchanged and the state is left untouched.  The last
component lists the `(bytes, alignment)` upstream `allocate` calls issued. -/
def MonotonicBufferResource.allocate_block {ε : Type}
    (upstream_alloc : Nat → Nat → Except ε Nat)
    (r : MonotonicBufferResource) (size : Nat) :
    Except ε Block × MonotonicBufferResource × List (Nat × Nat) :=
  match upstream_alloc (SIZEOF_BLOCK + size) ALIGNOF_BLOCK with
  | .error e => (.error e, r, [(SIZEOF_BLOCK + size, ALIGNOF_BLOCK)])
  | .ok a =>
    let b : Block := { hdr := a, ptr := a + SIZEOF_BLOCK, size := size }
    (.ok b, { r with block_list := b :: r.block_list },
     [(SIZEOF_BLOCK + size, ALIGNOF_BLOCK)])

/-- Round `pos` up to the next multiple of `align` (no-op if `align = 0`,
which never arises: C++ alignments are positive powers of two). -/
def roundUp (pos align : Nat) : Nat :=
  if align = 0 then pos else align * ((pos + align - 1) / align)

/-- Modelled from the spec: `monotonic_buffer_resource::do_allocate` is
declared (memory_resource.hpp line 216) but its body is not part of the
repository's sources; this definition follows spec §4.3 word for word.
(1) A request larger than the configured block-size threshold is forwarded
directly to the upstream provider as a standalone allocation of exactly
`bytes` at `align`, untracked.  (2) Otherwise, if there is no current block
or the current block cannot satisfy `bytes` at `align` starting from
`current_pos` rounded up to `align`, a new block of payload size
`max(bytes, block_size)` is obtained via `allocate_block` and becomes
current (offset restarting at 0), and the default block size doubles for the
subsequent growth event.  (3) The returned address is the payload base plus
the rounded offset, and `current_pos` advances past the request.  Returns
(result, new state, upstream `allocate` calls issued). -/
def MonotonicBufferResource.do_allocate {ε : Type}
    (upstream_alloc : Nat → Nat → Except ε Nat)
    (r : MonotonicBufferResource) (bytes align : Nat) :
    Except ε Nat × MonotonicBufferResource × List (Nat × Nat) :=
  if r.block_size < bytes then
    match upstream_alloc bytes align with
    | .error e => (.error e, r, [(bytes, align)])
    | .ok a => (.ok a, r, [(bytes, align)])
  else
    match r.current with
    | some cb =>
      if roundUp r.current_pos align + bytes ≤ cb.size then
        let off := roundUp r.current_pos align
        (.ok (cb.ptr + off), { r with current_pos := off + bytes }, [])
      else
        match r.allocate_block upstream_alloc (max bytes r.block_size) with
        | (.error e, r', calls) => (.error e, r', calls)
        | (.ok b, r', calls) =>
          (.ok b.ptr,
           { r' with current := some b, current_pos := bytes,
                     block_size := 2 * r.block_size },
           calls)
    | none =>
      match r.allocate_block upstream_alloc (max bytes r.block_size) with
      | (.error e, r', calls) => (.error e, r', calls)
      | (.ok b, r', calls) =>
        (.ok b.ptr,
         { r' with current := some b, current_pos := bytes,
                   block_size := 2 * r.block_size },
         calls)

/-!
## `polymorphic_allocator` (memory_resource.hpp lines 271-377)
-/

/-- The error taxonomy of the allocator's typed layer:
`badArrayNewLength` is the `std::bad_array_new_length` thrown by
`allocate_object` on size overflow; `badAlloc` stands for an allocation
failure signalled by the provider.  The two are distinct. -/
inductive AllocFailure where
  | badArrayNewLength
  | badAlloc
deriving DecidableEq, Repr

/-- `polymorphic_allocator::allocate_object<U>(n)` (lines 335-342),
parameterised by `sizeof(U)` and `alignof(U)`: throws
`std::bad_array_new_length` when `SIZE_T_MAX / sizeof(U) < n` — before any
allocation attempt — and otherwise delegates to
`allocate_bytes(n * sizeof(U), alignof(U))`.  On success the payload is the
`(nbytes, alignment)` argument pair of that single `allocate_bytes` call; on
the error path no `allocate_bytes` call is made. -/
def polymorphic_allocator.allocate_object (sizeofU alignofU n : Nat) :
    Except AllocFailure (Nat × Nat) :=
  if SIZE_T_MAX / sizeofU < n then .error .badArrayNewLength
  else .ok (n * sizeofU, alignofU)

/-- `polymorphic_allocator<Tp>`: holds only the provider pointer
(line 274); modelled by the provider's address. -/
structure polymorphic_allocator where
  memoryResource : Nat
deriving DecidableEq, Repr

/-- `operator==(polymorphic_allocator, polymorphic_allocator)`
(lines 371-377): compares the two `resource()` pointers for pointer
equality. -/
def polymorphic_allocator_eq (a b : polymorphic_allocator) : Bool :=
  a.memoryResource == b.memoryResource

/-!
## Helper lemmas
-/

/-- The release loop frees exactly the blocks of the list, in order. -/
theorem releaseLoop_eq_map (l : List Block) : releaseLoop l = l.map free_block := by
  induction l with
  | nil => rfl
  | cons b rest ih => simp [releaseLoop, ih]

/-!
## The claims
-/

/-- C1: for `monotonic_buffer_resource`, a `do_deallocate` of at most
`block_size` bytes issues no upstream call, a `do_deallocate` of more than
`block_size` bytes forwards exactly one `deallocate` to the upstream
provider, and the decision depends only on `bytes` versus `block_size` —
two resources with the same threshold but arbitrary per-allocation
bookkeeping (`current`, `current_pos`, `block_list`) behave identically. -/
theorem C1_arena_deallocate_threshold
    (r : MonotonicBufferResource) (p bytes alignment : Nat) :
    (bytes ≤ r.block_size → r.do_deallocate p bytes alignment = []) ∧
    (r.block_size < bytes →
      r.do_deallocate p bytes alignment =
        [{ p := p, bytes := bytes, alignment := ALIGNOF_MAX_ALIGN_T }]) ∧
    (∀ r' : MonotonicBufferResource, r'.block_size = r.block_size →
      r'.do_deallocate p bytes alignment = r.do_deallocate p bytes alignment) := by
  refine ⟨fun hle => ?_, fun hgt => ?_, fun r' hbs => ?_⟩
  · simp [MonotonicBufferResource.do_deallocate, Nat.not_lt.mpr hle]
  · simp [MonotonicBufferResource.do_deallocate, hgt]
  · simp [MonotonicBufferResource.do_deallocate, hbs]

/-- Witness for C1 at a concrete resource with threshold 100. -/
theorem C1_arena_deallocate_threshold_witness :
    (100 ≤ (MonotonicBufferResource.init 7 100).block_size ∧
      (MonotonicBufferResource.init 7 100).do_deallocate 5 100 8 = []) ∧
    ((MonotonicBufferResource.init 7 100).block_size < 101 ∧
      (MonotonicBufferResource.init 7 100).do_deallocate 5 101 8 =
        [{ p := 5, bytes := 101, alignment := ALIGNOF_MAX_ALIGN_T }]) :=
  ⟨⟨by decide,
    (C1_arena_deallocate_threshold (MonotonicBufferResource.init 7 100) 5 100 8).1
      (by decide)⟩,
   ⟨by decide,
    (C1_arena_deallocate_threshold (MonotonicBufferResource.init 7 100) 5 101 8).2.1
      (by decide)⟩⟩

/-- C2: for every provider variant (i.e. for every implementation of the
virtual `do_allocate`), `allocate(0, alignment)` returns the null pointer
and does not invoke `do_allocate`; and `deallocate(nullptr, bytes, alignment)`
does not invoke `do_deallocate`. -/
theorem C2_zero_alloc_null_dealloc_noop :
    (∀ (do_alloc : Nat → Nat → Addr) (alignment : Nat),
      memory_resource.allocate do_alloc 0 alignment = (none, none)) ∧
    (∀ bytes alignment : Nat,
      memory_resource.deallocate none bytes alignment = none) := by
  exact ⟨fun _ _ => rfl, fun _ _ => rfl⟩

/-- C4: `release()` issues exactly one upstream `deallocate` per block of
`block_list`, head to tail, each returning the block's full combined
header+payload allocation (`sizeof(block) + size` bytes at the header
address); afterwards `block_list` is empty and `current` is none, and a
second `release()` issues no upstream call and changes nothing. -/
theorem C4_release_frees_once_idempotent (r : MonotonicBufferResource) :
    (r.release).2 = r.block_list.map free_block ∧
    (r.release).1.block_list = [] ∧
    (r.release).1.current = none ∧
    (r.release).1.release = ((r.release).1, []) := by
  refine ⟨releaseLoop_eq_map r.block_list, rfl, rfl, ?_⟩
  simp [MonotonicBufferResource.release, releaseLoop]

/-- C5: `allocate_object<U>(n)` throws `std::bad_array_new_length` — the
size-overflow error, distinct from an allocation failure, raised before any
`allocate_bytes` call — exactly when `n * sizeof(U)` overflows `std::size_t`;
otherwise it delegates a single `allocate_bytes(n * sizeof(U), alignof(U))`. -/
theorem C5_allocate_object_overflow (sizeofU alignofU n : Nat)
    (hs : 0 < sizeofU) :
    (SIZE_T_MAX < n * sizeofU ↔
      polymorphic_allocator.allocate_object sizeofU alignofU n =
        .error .badArrayNewLength) ∧
    (n * sizeofU ≤ SIZE_T_MAX →
      polymorphic_allocator.allocate_object sizeofU alignofU n =
        .ok (n * sizeofU, alignofU)) := by
  have hdiv : SIZE_T_MAX / sizeofU < n ↔ SIZE_T_MAX < n * sizeofU :=
    Nat.div_lt_iff_lt_mul hs
  constructor
  · rw [← hdiv]
    unfold polymorphic_allocator.allocate_object
    constructor
    · intro h
      simp [h]
    · intro h
      by_cases hc : SIZE_T_MAX / sizeofU < n
      · exact hc
      · simp [hc] at h
  · intro hle
    have hnc : ¬ SIZE_T_MAX / sizeofU < n := by
      rw [hdiv]
      omega
    unfold polymorphic_allocator.allocate_object
    simp [hnc]

/-- Witness for C5: `sizeof(U) = 2`, `n = 2^63` overflows (the product is
`2^64 > SIZE_T_MAX`) and yields the overflow error. -/
theorem C5_allocate_object_overflow_witness :
    0 < 2 ∧
    ((SIZE_T_MAX < 2 ^ 63 * 2 ↔
        polymorphic_allocator.allocate_object 2 8 (2 ^ 63) =
          .error .badArrayNewLength) ∧
      (2 ^ 63 * 2 ≤ SIZE_T_MAX →
        polymorphic_allocator.allocate_object 2 8 (2 ^ 63) =
          .ok (2 ^ 63 * 2, 8))) :=
  ⟨by decide, C5_allocate_object_overflow 2 8 (2 ^ 63) (by decide)⟩

/-- C6: provider equality is instance identity — reflexive for each concrete
variant, false for two distinct instances even of the same concrete type —
and two allocator handles compare equal (`operator==`, which compares the
`resource()` pointers) exactly when their referenced providers are equal
under that identity-based `do_is_equal` relation. -/
theorem C6_identity_equality (a b : Nat) :
    NewDeleteResource.do_is_equal a a = true ∧
    MonotonicBufferResource.do_is_equal a a = true ∧
    (a ≠ b →
      NewDeleteResource.do_is_equal a b = false ∧
      MonotonicBufferResource.do_is_equal a b = false) ∧
    (∀ ha hb : polymorphic_allocator,
      polymorphic_allocator_eq ha hb = true ↔
        (NewDeleteResource.do_is_equal ha.memoryResource hb.memoryResource = true ∧
         MonotonicBufferResource.do_is_equal ha.memoryResource hb.memoryResource = true)) := by
  refine ⟨?_, ?_, fun hne => ⟨?_, ?_⟩, fun ha hb => ?_⟩
  · simp [NewDeleteResource.do_is_equal]
  · simp [MonotonicBufferResource.do_is_equal]
  · simp [NewDeleteResource.do_is_equal, hne]
  · simp [MonotonicBufferResource.do_is_equal, hne]
  · simp [polymorphic_allocator_eq, NewDeleteResource.do_is_equal,
      MonotonicBufferResource.do_is_equal]

/-- Witness for C6 at two distinct provider instances (addresses 1 and 2). -/
theorem C6_identity_equality_witness :
    NewDeleteResource.do_is_equal 1 1 = true ∧
    MonotonicBufferResource.do_is_equal 1 1 = true ∧
    ((1 : Nat) ≠ 2 →
      NewDeleteResource.do_is_equal 1 2 = false ∧
      MonotonicBufferResource.do_is_equal 1 2 = false) ∧
    (∀ ha hb : polymorphic_allocator,
      polymorphic_allocator_eq ha hb = true ↔
        (NewDeleteResource.do_is_equal ha.memoryResource hb.memoryResource = true ∧
         MonotonicBufferResource.do_is_equal ha.memoryResource hb.memoryResource = true)) :=
  C6_identity_equality 1 2

/-- C9: when the arena forwards a large deallocation (more than `block_size`
bytes) to its upstream provider, the upstream `deallocate` is called with the
defaulted alignment `alignof(std::max_align_t)`; the alignment the caller
passed is discarded — the forwarded call is the same for every caller
alignment. -/
theorem C9_large_dealloc_default_alignment
    (r : MonotonicBufferResource) (p bytes alignment : Nat)
    (hgt : r.block_size < bytes) :
    r.do_deallocate p bytes alignment =
      [{ p := p, bytes := bytes, alignment := ALIGNOF_MAX_ALIGN_T }] ∧
    ∀ alignment' : Nat,
      r.do_deallocate p bytes alignment = r.do_deallocate p bytes alignment' := by
  constructor
  · simp [MonotonicBufferResource.do_deallocate, hgt]
  · intro alignment'
    simp [MonotonicBufferResource.do_deallocate]

/-- Witness for C9: threshold 100, a 101-byte deallocation requested with
alignment 64 is forwarded with alignment 16 (`alignof(std::max_align_t)`). -/
theorem C9_large_dealloc_default_alignment_witness :
    (MonotonicBufferResource.init 7 100).block_size < 101 ∧
    ((MonotonicBufferResource.init 7 100).do_deallocate 5 101 64 =
        [{ p := 5, bytes := 101, alignment := ALIGNOF_MAX_ALIGN_T }] ∧
      ∀ alignment' : Nat,
        (MonotonicBufferResource.init 7 100).do_deallocate 5 101 64 =
          (MonotonicBufferResource.init 7 100).do_deallocate 5 101 alignment') :=
  ⟨by decide,
   C9_large_dealloc_default_alignment (MonotonicBufferResource.init 7 100) 5 101 64
     (by decide)⟩

/-- C10: `release()` only clears `block_list` and `current`; the upstream
provider reference, the `block_size` threshold and the bump offset
`current_pos` are all left unchanged (in particular `current_pos` is not
reset to zero). -/
theorem C10_release_frame (r : MonotonicBufferResource) :
    (r.release).1 = { r with block_list := [], current := none } ∧
    (r.release).1.upstream = r.upstream ∧
    (r.release).1.block_size = r.block_size ∧
    (r.release).1.current_pos = r.current_pos :=
  ⟨rfl, rfl, rfl, rfl⟩

/-!
## The growable container (`vector.hpp`)
-/

/-- The growable container's state, as far as the allocator contract is
concerned (vector.hpp lines 33-37): the constructed element sequence
(`nStored` is its length), the capacity `nAlloc`, and whether the data
pointer is null. -/
structure VectorModel where
  elems : List Int
  nAlloc : Nat
  ptrNull : Bool
deriving DecidableEq, Repr

/-- A fresh default-constructed `vector` (vector.hpp lines 41-45). -/
def VectorModel.empty : VectorModel :=
  { elems := [], nAlloc := 0, ptrNull := true }

/-- `vector::reserve(n)` (vector.hpp lines 385-397): if `n ≤ nAlloc` nothing
happens; otherwise one `allocate_object<T>(n)` is requested, every existing
element is move-constructed into the new region in order and the old one
destroyed in place, and the old allocation is released via
`deallocate_object(ptr, nAlloc)` — which does not reach the provider when
`ptr` is null.  Returns (new state, allocate requests, deallocate requests),
in element counts. -/
def VectorModel.reserve (v : VectorModel) (n : Nat) :
    VectorModel × List Nat × List Nat :=
  if n ≤ v.nAlloc then (v, [], [])
  else ({ elems := v.elems, nAlloc := n, ptrNull := false },
        [n],
        if v.ptrNull then [] else [v.nAlloc])

/-- `vector::push_back(value)` (vector.hpp lines 495-502): when full
(`nAlloc == nStored`), grow via `reserve(nAlloc == 0 ? 4 : 2 * nAlloc)`;
then construct the new element past the end. -/
def VectorModel.push_back (v : VectorModel) (x : Int) :
    VectorModel × List Nat × List Nat :=
  if v.nAlloc = v.elems.length then
    match v.reserve (if v.nAlloc = 0 then 4 else 2 * v.nAlloc) with
    | (v', allocs, deallocs) =>
      ({ v' with elems := v'.elems ++ [x] }, allocs, deallocs)
  else
    ({ v with elems := v.elems ++ [x] }, [], [])

/-- Appending a list of values one at a time, accumulating the allocate and
deallocate requests issued to the handle. -/
def VectorModel.pushAll (v : VectorModel) :
    List Int → VectorModel × List Nat × List Nat
  | [] => (v, [], [])
  | x :: xs =>
    match v.push_back x with
    | (v', a1, d1) =>
      match v'.pushAll xs with
      | (v'', a2, d2) => (v'', a1 ++ a2, d1 ++ d2)

/-!
## Alignment contracts (for C3)
-/

/-- The platform contract of the aligned-allocation primitive backing
`NewDeleteResource`: every address it returns is a multiple of the requested
alignment. -/
def MemalignAligned (memalign : Nat → Nat → Option Nat) : Prop :=
  ∀ alignment size a, memalign alignment size = some a → a % alignment = 0

/-- The arena's upstream provider honors every requested alignment. -/
def UpstreamHonorsAlignment {ε : Type} (up : Nat → Nat → Except ε Nat) : Prop :=
  ∀ bytes alignment a, up bytes alignment = .ok a → a % alignment = 0

/-- The current block's payload base is `alignof(block)`-aligned — true of
every block the arena creates from an `alignof(block)`-honoring upstream,
since `sizeof(block)` is itself a multiple of `alignof(block)`. -/
def CurrentPayloadAligned (r : MonotonicBufferResource) : Prop :=
  ∀ b, r.current = some b → b.ptr % ALIGNOF_BLOCK = 0

/-- `roundUp` lands on a multiple of the alignment. -/
theorem align_dvd_roundUp (pos align : Nat) (h : align ≠ 0) :
    align ∣ roundUp pos align := by
  unfold roundUp
  rw [if_neg h]
  exact ⟨_, rfl⟩


/-- On upstream failure `allocate_block` returns the failure unchanged,
leaves the arena state untouched, and has issued exactly one upstream call. -/
theorem allocate_block_error {ε : Type} (up : Nat → Nat → Except ε Nat)
    (r : MonotonicBufferResource) (size : Nat) (e : ε)
    (h : (r.allocate_block up size).1 = .error e) :
    up (SIZEOF_BLOCK + size) ALIGNOF_BLOCK = .error e ∧
    (r.allocate_block up size).2.1 = r ∧
    (r.allocate_block up size).2.2 = [(SIZEOF_BLOCK + size, ALIGNOF_BLOCK)] := by
  unfold MonotonicBufferResource.allocate_block at h ⊢
  cases hu : up (SIZEOF_BLOCK + size) ALIGNOF_BLOCK with
  | error e' =>
    rw [hu] at h
    simp at h ⊢
    exact h
  | ok u =>
    rw [hu] at h
    simp at h

/-- On upstream success `allocate_block` writes the header at the returned
address, sets the payload base right past it, and has issued exactly one
upstream call of the combined size. -/
theorem allocate_block_ok {ε : Type} (up : Nat → Nat → Except ε Nat)
    (r : MonotonicBufferResource) (size : Nat) (b : Block)
    (h : (r.allocate_block up size).1 = .ok b) :
    up (SIZEOF_BLOCK + size) ALIGNOF_BLOCK = .ok b.hdr ∧
    b.ptr = b.hdr + SIZEOF_BLOCK ∧ b.size = size ∧
    (r.allocate_block up size).2.2 = [(SIZEOF_BLOCK + size, ALIGNOF_BLOCK)] := by
  unfold MonotonicBufferResource.allocate_block at h ⊢
  cases hu : up (SIZEOF_BLOCK + size) ALIGNOF_BLOCK with
  | error e' =>
    rw [hu] at h
    simp at h
  | ok u =>
    rw [hu] at h
    simp at h
    subst h
    simp

/-- `do_allocate` on a request above the threshold: standalone upstream
forwarding. -/
theorem do_allocate_big {ε : Type} (up : Nat → Nat → Except ε Nat)
    (r : MonotonicBufferResource) (bytes align : Nat)
    (hbig : r.block_size < bytes) :
    r.do_allocate up bytes align =
      match up bytes align with
      | .error e => (.error e, r, [(bytes, align)])
      | .ok a => (.ok a, r, [(bytes, align)]) := by
  unfold MonotonicBufferResource.do_allocate
  rw [if_pos hbig]

/-- `do_allocate` when the current block satisfies the request: pure bump. -/
theorem do_allocate_fit {ε : Type} (up : Nat → Nat → Except ε Nat)
    (r : MonotonicBufferResource) (bytes align : Nat) (cb : Block)
    (hbig : ¬ r.block_size < bytes) (hc : r.current = some cb)
    (hfit : roundUp r.current_pos align + bytes ≤ cb.size) :
    r.do_allocate up bytes align =
      (.ok (cb.ptr + roundUp r.current_pos align),
       { r with current_pos := roundUp r.current_pos align + bytes }, []) := by
  unfold MonotonicBufferResource.do_allocate
  rw [if_neg hbig, hc]
  dsimp only
  rw [if_pos hfit]

/-- `do_allocate` when a new block must be obtained (no current block, or the
current block cannot satisfy the request). -/
theorem do_allocate_newblock {ε : Type} (up : Nat → Nat → Except ε Nat)
    (r : MonotonicBufferResource) (bytes align : Nat)
    (hbig : ¬ r.block_size < bytes)
    (hnofit : ∀ cb, r.current = some cb →
      ¬ (roundUp r.current_pos align + bytes ≤ cb.size)) :
    r.do_allocate up bytes align =
      match r.allocate_block up (max bytes r.block_size) with
      | (.error e, r', calls) => (.error e, r', calls)
      | (.ok b, r', calls) =>
        (.ok b.ptr,
         { r' with current := some b, current_pos := bytes,
                   block_size := 2 * r.block_size },
         calls) := by
  unfold MonotonicBufferResource.do_allocate
  rw [if_neg hbig]
  cases hc : r.current with
  | some cb =>
    dsimp only
    rw [if_neg (hnofit cb hc)]
  | none =>
    dsimp only

/-- `do_allocate` through the new-block path, upstream failing: the error is
returned unchanged, after exactly one upstream call of the combined size,
with the arena state untouched. -/
theorem do_allocate_newblock_error {ε : Type} (up : Nat → Nat → Except ε Nat)
    (r : MonotonicBufferResource) (bytes align : Nat) (e : ε)
    (hbig : ¬ r.block_size < bytes)
    (hnofit : ∀ cb, r.current = some cb →
      ¬ (roundUp r.current_pos align + bytes ≤ cb.size))
    (herr : (r.do_allocate up bytes align).1 = .error e) :
    (r.do_allocate up bytes align).2.2 =
      [(SIZEOF_BLOCK + max bytes r.block_size, ALIGNOF_BLOCK)] ∧
    up (SIZEOF_BLOCK + max bytes r.block_size) ALIGNOF_BLOCK = .error e ∧
    (r.do_allocate up bytes align).2.1 = r := by
  rw [do_allocate_newblock up r bytes align hbig hnofit] at herr ⊢
  rcases hab : r.allocate_block up (max bytes r.block_size) with ⟨res, r2, calls⟩
  rw [hab] at herr
  cases res with
  | error e' =>
    dsimp only at herr
    injection herr with he
    subst he
    have habe := allocate_block_error up r (max bytes r.block_size) e' (by rw [hab])
    have hcalls : calls = [(SIZEOF_BLOCK + max bytes r.block_size, ALIGNOF_BLOCK)] := by
      have h2 := habe.2.2
      rw [hab] at h2
      exact h2
    have hr2 : r2 = r := by
      have h2 := habe.2.1
      rw [hab] at h2
      exact h2
    exact ⟨hcalls, habe.1, hr2⟩
  | ok b =>
    simp at herr

/-- `do_allocate` through the new-block path, upstream succeeding: the
returned address sits `sizeof(block)` past the header the upstream returned. -/
theorem do_allocate_newblock_ok {ε : Type} (up : Nat → Nat → Except ε Nat)
    (r : MonotonicBufferResource) (bytes align a : Nat)
    (hbig : ¬ r.block_size < bytes)
    (hnofit : ∀ cb, r.current = some cb →
      ¬ (roundUp r.current_pos align + bytes ≤ cb.size))
    (hok : (r.do_allocate up bytes align).1 = .ok a) :
    ∃ hdr, up (SIZEOF_BLOCK + max bytes r.block_size) ALIGNOF_BLOCK = .ok hdr ∧
      a = hdr + SIZEOF_BLOCK := by
  rw [do_allocate_newblock up r bytes align hbig hnofit] at hok
  rcases hab : r.allocate_block up (max bytes r.block_size) with ⟨res, r2, calls⟩
  rw [hab] at hok
  cases res with
  | error e' =>
    simp at hok
  | ok b =>
    dsimp only at hok
    injection hok with hb
    have h1 := allocate_block_ok up r (max bytes r.block_size) b (by rw [hab])
    exact ⟨b.hdr, h1.1, by rw [← hb, h1.2.1]⟩

/-- C3 (amended): the system provider returns addresses that are multiples of
the requested alignment, inherited from the platform primitive's contract;
the arena provider does so for standalone large requests (forwarded upstream
at the requested alignment), while for chained requests it only aligns the
offset relative to the block payload base, so its addresses are alignment
multiples whenever the alignment divides `alignof(block)` (the payload base
being header-aligned). -/
theorem C3_alignment_amended :
    (∀ (memalign : Nat → Nat → Option Nat), MemalignAligned memalign →
      ∀ size alignment a,
        NewDeleteResource.do_allocate memalign size alignment = some a →
        a % alignment = 0) ∧
    (∀ (ε : Type) (up : Nat → Nat → Except ε Nat) (r : MonotonicBufferResource)
        (bytes align a : Nat),
      UpstreamHonorsAlignment up → r.block_size < bytes →
      (r.do_allocate up bytes align).1 = .ok a →
      a % align = 0) ∧
    (∀ (ε : Type) (up : Nat → Nat → Except ε Nat) (r : MonotonicBufferResource)
        (bytes align a : Nat),
      UpstreamHonorsAlignment up → CurrentPayloadAligned r →
      align ≠ 0 → align ∣ ALIGNOF_BLOCK →
      (r.do_allocate up bytes align).1 = .ok a →
      a % align = 0) := by
  have hdvd24 : ALIGNOF_BLOCK ∣ SIZEOF_BLOCK := ⟨3, rfl⟩
  have hbigcase : ∀ (ε : Type) (up : Nat → Nat → Except ε Nat)
      (r : MonotonicBufferResource) (bytes align a : Nat),
      UpstreamHonorsAlignment up → r.block_size < bytes →
      (r.do_allocate up bytes align).1 = .ok a → a % align = 0 := by
    intro ε up r bytes align a hup hbig hok
    rw [do_allocate_big up r bytes align hbig] at hok
    cases hu : up bytes align with
    | error e =>
      rw [hu] at hok
      simp at hok
    | ok a' =>
      rw [hu] at hok
      dsimp only at hok
      injection hok with h
      subst h
      exact hup _ _ _ hu
  refine ⟨fun m hm size al a h => hm al size a h, hbigcase, ?_⟩
  intro ε up r bytes align a hup hcur hal hdvd hok
  by_cases hbig : r.block_size < bytes
  · exact hbigcase ε up r bytes align a hup hbig hok
  · cases hc : r.current with
    | some cb =>
      by_cases hfit : roundUp r.current_pos align + bytes ≤ cb.size
      · rw [do_allocate_fit up r bytes align cb hbig hc hfit] at hok
        dsimp only at hok
        injection hok with h
        subst h
        obtain ⟨k1, hk1⟩ :=
          dvd_trans hdvd (Nat.dvd_of_mod_eq_zero (hcur cb hc))
        obtain ⟨k2, hk2⟩ := align_dvd_roundUp r.current_pos align hal
        rw [hk1, hk2, ← Nat.mul_add]
        exact Nat.mul_mod_right align _
      · have hnofit : ∀ cb2, r.current = some cb2 →
            ¬ (roundUp r.current_pos align + bytes ≤ cb2.size) := by
          intro cb2 hcb2
          rw [hc] at hcb2
          injection hcb2 with hcb
          subst hcb
          exact hfit
        obtain ⟨hdr, hu, ha⟩ :=
          do_allocate_newblock_ok up r bytes align a hbig hnofit hok
        subst ha
        obtain ⟨k1, hk1⟩ :=
          dvd_trans hdvd (Nat.dvd_of_mod_eq_zero (hup _ _ _ hu))
        obtain ⟨k2, hk2⟩ := dvd_trans hdvd hdvd24
        rw [hk1, hk2, ← Nat.mul_add]
        exact Nat.mul_mod_right align _
    | none =>
      have hnofit : ∀ cb2, r.current = some cb2 →
          ¬ (roundUp r.current_pos align + bytes ≤ cb2.size) := by
        intro cb2 hcb2
        rw [hc] at hcb2
        exact absurd hcb2 (by simp)
      obtain ⟨hdr, hu, ha⟩ :=
        do_allocate_newblock_ok up r bytes align a hbig hnofit hok
      subst ha
      obtain ⟨k1, hk1⟩ :=
        dvd_trans hdvd (Nat.dvd_of_mod_eq_zero (hup _ _ _ hu))
      obtain ⟨k2, hk2⟩ := dvd_trans hdvd hdvd24
      rw [hk1, hk2, ← Nat.mul_add]
      exact Nat.mul_mod_right align _

/-- C3 counterexample: a fresh arena with threshold 64 over an upstream that
returns address 16 — a legitimate answer, since the single call the arena
makes requests alignment `alignof(block)` = 8 and 16 is a multiple of 8.
The chained allocation `allocate(8, 16)` returns address 16 + 24 = 40, which
is not a multiple of the requested alignment 16. -/
theorem C3_alignment_counterexample :
    (((MonotonicBufferResource.init 0 64).do_allocate
        (fun _ _ => (Except.ok 16 : Except Unit Nat)) 8 16).1 = Except.ok 40 ∧
      40 % 16 ≠ 0) ∧
    ((MonotonicBufferResource.init 0 64).do_allocate
        (fun _ _ => (Except.ok 16 : Except Unit Nat)) 8 16).2.2 = [(88, 8)] ∧
    16 % 8 = 0 :=
  ⟨⟨rfl, by decide⟩, rfl, by decide⟩

/-- Witness for C3 (amended), at a zero-returning primitive and an
always-zero (hence always-aligned) upstream: the system provider's address 0
is a multiple of 16, and the chained `allocate(8, 8)` on a fresh threshold-64
arena returns address 24, a multiple of 8. -/
theorem C3_alignment_amended_witness :
    MemalignAligned (fun _ _ => some 0) ∧
    (0 : Nat) % 16 = 0 ∧
    UpstreamHonorsAlignment (fun _ _ => (Except.ok 0 : Except Unit Nat)) ∧
    CurrentPayloadAligned (MonotonicBufferResource.init 0 64) ∧
    ((MonotonicBufferResource.init 0 64).do_allocate
        (fun _ _ => (Except.ok 0 : Except Unit Nat)) 8 8).1 = Except.ok 24 ∧
    (24 : Nat) % 8 = 0 := by
  have hm : MemalignAligned (fun _ _ => some 0) := by
    intro al s a h
    injection h with h'
    rw [← h']
    exact Nat.zero_mod al
  have hup : UpstreamHonorsAlignment (fun _ _ => (Except.ok 0 : Except Unit Nat)) := by
    intro b al a h
    injection h with h'
    rw [← h']
    exact Nat.zero_mod al
  have hcur : CurrentPayloadAligned (MonotonicBufferResource.init 0 64) := by
    intro b hb
    simp [MonotonicBufferResource.init] at hb
  exact ⟨hm,
    C3_alignment_amended.1 (fun _ _ => some 0) hm 8 16 0 rfl,
    hup, hcur, rfl,
    C3_alignment_amended.2.2 Unit (fun _ _ => Except.ok 0)
      (MonotonicBufferResource.init 0 64) 8 8 24 hup hcur (by decide) (by decide) rfl⟩

set_option maxRecDepth 8000 in
/-- C7 (amended): when appending to a full container the code requests a new
allocation of `nAlloc == 0 ? 4 : 2 * nAlloc` elements — which coincides with
`max(4, 2 * capacity)` except at capacity 1, where 2 elements are requested —
moves the existing elements into the new region in order (destroying the old
ones) and releases the old allocation; appending the integers 0..99 one at a
time to a fresh container yields the element sequence [0..99] in order with
exactly the 6 allocations 4, 8, 16, 32, 64, 128. -/
theorem C7_growth_amended :
    (∀ (v : VectorModel) (x : Int), v.nAlloc = v.elems.length →
      (v.push_back x).2.1 = [if v.nAlloc = 0 then 4 else 2 * v.nAlloc] ∧
      (v.push_back x).2.2 = (if v.ptrNull then [] else [v.nAlloc]) ∧
      (v.push_back x).1.elems = v.elems ++ [x] ∧
      (v.push_back x).1.nAlloc = (if v.nAlloc = 0 then 4 else 2 * v.nAlloc)) ∧
    ((VectorModel.empty.pushAll ((List.range 100).map Int.ofNat)).1.elems =
        (List.range 100).map Int.ofNat ∧
      (VectorModel.empty.pushAll ((List.range 100).map Int.ofNat)).2.1 =
        [4, 8, 16, 32, 64, 128]) := by
  constructor
  · intro v x hfull
    obtain ⟨elems, nAlloc, ptrNull⟩ := v
    simp only at hfull
    subst hfull
    unfold VectorModel.push_back VectorModel.reserve
    by_cases h0 : elems.length = 0
    · simp [h0]
    · have h1 : ¬ (2 * elems.length ≤ elems.length) := by omega
      simp [h0, h1]
  · exact ⟨rfl, rfl⟩

/-- C7 counterexample: a full container of capacity 1 — reachable via the
count constructor `vector(1, value)` (vector.hpp lines 51-66) — grows by
requesting 2 elements, not `max(4, 2 * 1) = 4` as the claim states. -/
theorem C7_growth_counterexample :
    ((VectorModel.push_back { elems := [0], nAlloc := 1, ptrNull := false } 5).2.1 =
        [2] ∧
      max 4 (2 * 1) = 4) ∧
    (2 : Nat) ≠ 4 :=
  ⟨⟨rfl, rfl⟩, by decide⟩

/-- Witness for C7 (amended) at the full capacity-1 container. -/
theorem C7_growth_amended_witness :
    ({ elems := [0], nAlloc := 1, ptrNull := false } : VectorModel).nAlloc =
      ({ elems := [0], nAlloc := 1, ptrNull := false } : VectorModel).elems.length ∧
    ((VectorModel.push_back { elems := [0], nAlloc := 1, ptrNull := false } 7).2.1 =
        [2] ∧
      (VectorModel.push_back { elems := [0], nAlloc := 1, ptrNull := false } 7).2.2 =
        [1] ∧
      (VectorModel.push_back { elems := [0], nAlloc := 1, ptrNull := false } 7).1.elems =
        [0, 7] ∧
      (VectorModel.push_back { elems := [0], nAlloc := 1, ptrNull := false } 7).1.nAlloc =
        2) :=
  ⟨rfl, C7_growth_amended.1 { elems := [0], nAlloc := 1, ptrNull := false } 7 rfl⟩

/-- C8: when the upstream provider fails a block or standalone allocation,
the arena's `do_allocate` returns that very failure unchanged to its caller:
exactly one upstream call was made (no retry, no fallback), its requested
size is at least the caller's `bytes` (no substitution with a smaller
allocation), the error is exactly the upstream's, and the arena state is
untouched. -/
theorem C8_upstream_failure_propagates (ε : Type)
    (up : Nat → Nat → Except ε Nat) (r : MonotonicBufferResource)
    (bytes align : Nat) (e : ε)
    (herr : (r.do_allocate up bytes align).1 = .error e) :
    ∃ ub ua, (r.do_allocate up bytes align).2.2 = [(ub, ua)] ∧
      up ub ua = .error e ∧ bytes ≤ ub ∧
      (r.do_allocate up bytes align).2.1 = r := by
  have hle : bytes ≤ SIZEOF_BLOCK + max bytes r.block_size :=
    le_trans (Nat.le_max_left _ _) (Nat.le_add_left _ _)
  by_cases hbig : r.block_size < bytes
  · rw [do_allocate_big up r bytes align hbig] at herr ⊢
    cases hu : up bytes align with
    | error e' =>
      rw [hu] at herr
      dsimp only at herr
      injection herr with he
      subst he
      exact ⟨bytes, align, rfl, hu, le_refl _, rfl⟩
    | ok a' =>
      rw [hu] at herr
      simp at herr
  · cases hc : r.current with
    | some cb =>
      by_cases hfit : roundUp r.current_pos align + bytes ≤ cb.size
      · rw [do_allocate_fit up r bytes align cb hbig hc hfit] at herr
        simp at herr
      · have hnofit : ∀ cb2, r.current = some cb2 →
            ¬ (roundUp r.current_pos align + bytes ≤ cb2.size) := by
          intro cb2 hcb2
          rw [hc] at hcb2
          injection hcb2 with hcb
          subst hcb
          exact hfit
        obtain ⟨hcalls, hu, hst⟩ :=
          do_allocate_newblock_error up r bytes align e hbig hnofit herr
        exact ⟨SIZEOF_BLOCK + max bytes r.block_size, ALIGNOF_BLOCK,
          hcalls, hu, hle, hst⟩
    | none =>
      have hnofit : ∀ cb2, r.current = some cb2 →
          ¬ (roundUp r.current_pos align + bytes ≤ cb2.size) := by
        intro cb2 hcb2
        rw [hc] at hcb2
        exact absurd hcb2 (by simp)
      obtain ⟨hcalls, hu, hst⟩ :=
        do_allocate_newblock_error up r bytes align e hbig hnofit herr
      exact ⟨SIZEOF_BLOCK + max bytes r.block_size, ALIGNOF_BLOCK,
        hcalls, hu, hle, hst⟩

/-- Witness for C8: an always-failing upstream (error 42) makes
`allocate(8, 8)` on a fresh threshold-64 arena fail with error 42 after
exactly one upstream call, of the combined 88 bytes, leaving the arena
unchanged. -/
theorem C8_upstream_failure_propagates_witness :
    ((MonotonicBufferResource.init 0 64).do_allocate
        (fun _ _ => (Except.error 42 : Except Nat Nat)) 8 8).1 = .error 42 ∧
    ∃ ub ua,
      ((MonotonicBufferResource.init 0 64).do_allocate
          (fun _ _ => (Except.error 42 : Except Nat Nat)) 8 8).2.2 = [(ub, ua)] ∧
      (fun _ _ => (Except.error 42 : Except Nat Nat)) ub ua = .error 42 ∧
      8 ≤ ub ∧
      ((MonotonicBufferResource.init 0 64).do_allocate
          (fun _ _ => (Except.error 42 : Except Nat Nat)) 8 8).2.1 =
        MonotonicBufferResource.init 0 64 :=
  ⟨rfl, C8_upstream_failure_propagates Nat (fun _ _ => Except.error 42)
    (MonotonicBufferResource.init 0 64) 8 8 42 rfl⟩

end ZSTL
